import Mathlib

/-!
Verification of the build-recovery controller of `scripts/init_project.py`
(class `AutomationEngine`).

The controller drives a two-phase external build (CMake configure, then
compile) with a bounded retry loop, classifying failures against a table of
error patterns and running remediation commands.  We embed the Python code
shallowly:

* `subprocess.run` results of the build tool are modelled by `ProcResult`;
* a remediation command run (`subprocess.run(cmd, shell=True, timeout=30)`)
  may yield an exit status, a `TimeoutExpired`, or some other exception,
  modelled by `CmdOutcome`;
* the external world (current platform, regex engine, outcomes of each
  subprocess call) is an `Env` record, so theorems quantify over every
  behaviour of the externals;
* observable side effects (numbers of configure/compile invocations, the
  remediation commands actually executed, the process working directory
  set by `os.chdir`) are threaded through a `Trace` record.

Dictionaries read with `dict.get(key, default)` in the source are modelled
as structures with `Option` fields read through `Option.getD`.
-/

namespace InitProject

/-- Result of a `subprocess.run` invocation of the build tool
(`cmake -B build` / `cmake --build build`, run with `capture_output=True`):
exit status plus captured stderr and stdout. -/
structure ProcResult where
  returncode : Int
  stderr : String
  stdout : String

/-- Outcome of `subprocess.run(cmd, shell=True, capture_output=True, timeout=30)`
inside `execute_auto_fix`: normal completion with an exit code, a
`subprocess.TimeoutExpired`, or any other `Exception`. -/
inductive CmdOutcome where
  | exit (code : Int)
  | timeout
  | exc

/-- One record of a pattern's `auto_fix` (or `fallback`) list.  Keys absent
from the JSON record are `none`. -/
structure Action where
  method : Option String
  command : Option String
  command_windows : Option String
  command_linux : Option String
  message : Option String

/-- One record of the `patterns` list of `error-patterns.json`.  Keys absent
from the JSON record are `none`; the source reads them with
`pattern.get("regex", "")`, `pattern.get("platform", ["all"])`,
`pattern.get("auto_fix", [])` and `pattern.get("fallback", [])`. -/
structure ErrorPattern where
  regex : Option String
  platform : Option (List String)
  user_message : Option String
  auto_fix : Option (List Action)
  fallback : Option (List Action)

/-- The external world seen by the controller.

`research r s` models `re.search(r, s, re.IGNORECASE) is not None`.
`configure n` / `compile n` give the build tool's result on the call made
during 0-based loop attempt `n`.  `runFix k c` gives the outcome of the
`k`-th remediation command executed during the whole run (a global counter),
when that command is the string `c`. -/
structure Env where
  platform : String
  research : String → String → Bool
  configure : Nat → ProcResult
  compile : Nat → ProcResult
  runFix : Nat → String → CmdOutcome

/-- Observable side effects of a run: how many times each build phase was
invoked, which remediation commands were executed (in order), and the
process-wide current working directory. -/
structure Trace where
  configures : Nat
  compiles : Nat
  fixCmds : List String
  cwd : String

/-- Record that a remediation command was executed. -/
def Trace.pushCmd (tr : Trace) (c : String) : Trace :=
  { tr with fixCmds := tr.fixCmds ++ [c] }

/-- Python string slicing `s[:n]`: the first `n` characters of `s`. -/
def pySlice (s : String) (n : Nat) : String := String.mk (s.data.take n)

/-- Python `a or b` on optional command strings: `None` and `""` are falsy,
so both fall through to `b` (`fix.get("command_windows") or fix.get("command")`). -/
def pyOr : Option String → Option String → Option String
  | some s, b => if s = "" then b else some s
  | none, b => b

/-- Command selection of `execute_auto_fix`: on Windows
`fix.get("command_windows") or fix.get("command")`, otherwise
`fix.get("command_linux") or fix.get("command")`. -/
def selectCmd (platform : String) (a : Action) : Option String :=
  if platform = "Windows" then pyOr a.command_windows a.command
  else pyOr a.command_linux a.command

/-- `AutomationEngine.match_error_pattern`: linear scan of the pattern list;
a pattern whose platform list names neither "all" nor the current platform
is skipped; otherwise the first pattern whose regex matches the output
(case-insensitively, via the `research` oracle) is returned. -/
def match_error_pattern (env : Env) : List ErrorPattern → String → Option ErrorPattern
  | [], _ => none
  | p :: rest, error_output =>
    let regex := p.regex.getD ""
    let pattern_platforms := p.platform.getD ["all"]
    if "all" ∉ pattern_platforms ∧ env.platform ∉ pattern_platforms then
      match_error_pattern env rest error_output
    else if env.research regex error_output then some p
    else match_error_pattern env rest error_output

/-- The `for fix in auto_fixes` loop of `AutomationEngine.execute_auto_fix`:
select the platform-appropriate command; `if not cmd` (command `None` or
`""`) log the informational message and move on; otherwise run the command
(`k` is the running count of executed remediation commands) and return
`True` at the first exit status 0.  The `except TimeoutExpired` and
`except Exception` handlers of the source are the `timeout` and `exc`
branches: they log a warning and fall through to the next action. -/
def execFixes (env : Env) : List Action → Nat → Trace → Bool × Nat × Trace
  | [], k, tr => (false, k, tr)
  | a :: rest, k, tr =>
    match selectCmd env.platform a with
    | none => execFixes env rest k tr
    | some c =>
      if c = "" then execFixes env rest k tr
      else
        match env.runFix k c with
        | CmdOutcome.exit code =>
          if code = 0 then (true, k + 1, tr.pushCmd c)
          else execFixes env rest (k + 1) (tr.pushCmd c)
        | CmdOutcome.timeout => execFixes env rest (k + 1) (tr.pushCmd c)
        | CmdOutcome.exc => execFixes env rest (k + 1) (tr.pushCmd c)

/-- `AutomationEngine.execute_auto_fix`: read `pattern.get("auto_fix", [])`
and run the action loop.  The source's early `return False` on an empty
list and the `return False` after an unsuccessful loop both coincide with
`execFixes` on `[]` / an exhausted list. -/
def execute_auto_fix (env : Env) (pat : ErrorPattern) (k : Nat) (tr : Trace) :
    Bool × Nat × Trace :=
  execFixes env (pat.auto_fix.getD []) k tr

/-- The `for fallback in fallbacks` loop of `build_with_validation`: each
fallback is wrapped as a one-action pattern and run through
`execute_auto_fix`.  In the source the `continue` in this loop targets the
`for` loop itself (not the outer retry loop), so it is a no-op: every
fallback is executed in turn and the boolean result is discarded. -/
def runFallbacks (env : Env) : List Action → Nat → Trace → Nat × Trace
  | [], k, tr => (k, tr)
  | fb :: rest, k, tr =>
    let r := execFixes env [fb] k tr
    runFallbacks env rest r.2.1 r.2.2

/-- Failure handling of `build_with_validation`, identical for the two
phases up to the message head (`"CMake configure failed: "` resp.
`"Build failed: "`): match a pattern; if one matches, run its remediation
and, on success, signal a retry of the loop (`Sum.inl`, carrying the
updated command counter and trace); otherwise execute every fallback
(`pattern.get("fallback", [])`, empty when no pattern matched) and return
the failure message built from the first 300 characters of the combined
output (`Sum.inr`). -/
def handleFailure (env : Env) (patterns : List ErrorPattern)
    (msgHead error_output : String) (k : Nat) (tr : Trace) :
    Sum (Nat × Trace) (String × Nat × Trace) :=
  match match_error_pattern env patterns error_output with
  | some pat =>
    let r := execute_auto_fix env pat k tr
    if r.1 then Sum.inl (r.2.1, r.2.2)
    else
      let fb := runFallbacks env (pat.fallback.getD []) r.2.1 r.2.2
      Sum.inr (msgHead ++ pySlice error_output 300, fb.1, fb.2)
  | none => Sum.inr (msgHead ++ pySlice error_output 300, k, tr)

/-- `self.max_retry_attempts` set in `AutomationEngine.__init__`. -/
def max_retry_attempts : Nat := 3

/-- Message returned when the loop exhausts all attempts
(`f"Build failed after {self.max_retry_attempts} attempts"`). -/
def exhaustedMsg : String :=
  "Build failed after " ++ toString max_retry_attempts ++ " attempts"

/-- The `for attempt in range(self.max_retry_attempts)` loop of
`build_with_validation`.  `rem` is the number of iterations left, `attempt`
the 0-based loop index, `k` the remediation-command counter.  Each
iteration runs configure; on failure, recovery either continues the loop or
returns the truncated failure; then compile with the same handling; if both
phases succeed it returns success immediately. -/
def bwvLoop (env : Env) (patterns : List ErrorPattern) :
    Nat → Nat → Nat → Trace → (Bool × String) × Trace
  | 0, _, _, tr => ((false, exhaustedMsg), tr)
  | rem + 1, attempt, k, tr =>
    let cfg := env.configure attempt
    let tr1 : Trace := { tr with configures := tr.configures + 1 }
    if cfg.returncode ≠ 0 then
      let out := cfg.stderr ++ cfg.stdout
      match handleFailure env patterns "CMake configure failed: " out k tr1 with
      | Sum.inl kt => bwvLoop env patterns rem (attempt + 1) kt.1 kt.2
      | Sum.inr m => ((false, m.1), m.2.2)
    else
      let cmp := env.compile attempt
      let tr2 : Trace := { tr1 with compiles := tr1.compiles + 1 }
      if cmp.returncode ≠ 0 then
        let out := cmp.stderr ++ cmp.stdout
        match handleFailure env patterns "Build failed: " out k tr2 with
        | Sum.inl kt => bwvLoop env patterns rem (attempt + 1) kt.1 kt.2
        | Sum.inr m => ((false, m.1), m.2.2)
      else ((true, "Build completed successfully"), tr2)

/-- `AutomationEngine.build_with_validation`: `os.chdir(project_dir)` (the
trace's working directory is overwritten and never restored), then the
retry loop starting from attempt 0 with no commands executed yet.
`cwd0` is the working directory of the process before the call. -/
def build_with_validation (env : Env) (patterns : List ErrorPattern)
    (project_dir cwd0 : String) : (Bool × String) × Trace :=
  let tr0 : Trace := { configures := 0, compiles := 0, fixCmds := [], cwd := cwd0 }
  bwvLoop env patterns max_retry_attempts 0 0 { tr0 with cwd := project_dir }

/-- The JSON sources `_load_json` can face: a successful parse, a missing
file (`FileNotFoundError`), or a malformed file (`json.JSONDecodeError`). -/
inductive LoadOutcome where
  | ok (patterns : Option (List ErrorPattern))
  | fileNotFound
  | jsonDecodeError

/-- `AutomationEngine._load_json` for the error-patterns file, composed with
the read `self.error_patterns.get("patterns", [])`: a parsed file yields its
`patterns` list (or `[]` when the key is absent); absence or a parse failure
yields the empty dict `{}`, hence the empty list. -/
def loadPatterns : LoadOutcome → List ErrorPattern
  | LoadOutcome.ok ps => ps.getD []
  | LoadOutcome.fileNotFound => []
  | LoadOutcome.jsonDecodeError => []

/-- A pattern qualifies for a given output: its platform list (default
`["all"]`) names "all" or the current platform, and its regex (default `""`)
matches the output.  Used to state the first-match property of
`match_error_pattern`. -/
def qualifies (env : Env) (error_output : String) (p : ErrorPattern) : Bool :=
  (decide ("all" ∈ p.platform.getD ["all"]) ||
      decide (env.platform ∈ p.platform.getD ["all"])) &&
    env.research (p.regex.getD "") error_output

/-- The commands `execute_auto_fix` would actually run for an action list,
in order: the selected platform command of each action, dropping actions
whose selected command is missing or empty (informational actions). -/
def runnableCmds (platform : String) (fixes : List Action) : List String :=
  fixes.filterMap (fun a =>
    match selectCmd platform a with
    | none => none
    | some c => if c = "" then none else some c)

/-- The trace carried by either outcome of `handleFailure`. -/
def recTrace : Sum (Nat × Trace) (String × Nat × Trace) → Trace
  | Sum.inl kt => kt.2
  | Sum.inr m => m.2.2

/-- Concrete environment: Linux, every regex matches, the configure phase
always fails with stderr `"E"`, and every remediation command exits with
status 0. -/
def envC1 : Env where
  platform := "Linux"
  research := fun _ _ => true
  configure := fun _ => { returncode := 1, stderr := "E", stdout := "" }
  compile := fun _ => { returncode := 0, stderr := "", stdout := "" }
  runFix := fun _ _ => CmdOutcome.exit 0

/-- Concrete action whose generic command is `"fixit"`. -/
def fbC1 : Action where
  method := some "install_tool"
  command := some "fixit"
  command_windows := none
  command_linux := none
  message := none

/-- Concrete pattern with empty remediation list and one fallback action. -/
def patC1 : ErrorPattern where
  regex := some "boom"
  platform := none
  user_message := none
  auto_fix := some []
  fallback := some [fbC1]

/-- Concrete environment: Linux, no regex ever matches, configure always
succeeds and compile always fails with stderr `"boom"`. -/
def envC3 : Env where
  platform := "Linux"
  research := fun _ _ => false
  configure := fun _ => { returncode := 0, stderr := "", stdout := "" }
  compile := fun _ => { returncode := 1, stderr := "boom", stdout := "" }
  runFix := fun _ _ => CmdOutcome.exc

/-- Concrete environment whose remediation commands all time out. -/
def envTimeout : Env where
  platform := "Linux"
  research := fun _ _ => true
  configure := fun _ => { returncode := 1, stderr := "E", stdout := "" }
  compile := fun _ => { returncode := 0, stderr := "", stdout := "" }
  runFix := fun _ _ => CmdOutcome.timeout

/-- Concrete pattern record with no `regex` key at all. -/
def patC9 : ErrorPattern where
  regex := none
  platform := none
  user_message := none
  auto_fix := none
  fallback := none

/-- A concrete starting trace. -/
def trW : Trace where
  configures := 0
  compiles := 0
  fixCmds := []
  cwd := "/home"

theorem execFixes_core (env : Env) (l : List Action) :
    ∀ (k : Nat) (tr : Trace),
      ((execFixes env l k tr).2.2).configures = tr.configures ∧
      ((execFixes env l k tr).2.2).compiles = tr.compiles ∧
      ((execFixes env l k tr).2.2).cwd = tr.cwd := by
  induction l with
  | nil => exact fun k tr => ⟨rfl, rfl, rfl⟩
  | cons a rest ih =>
    intro k tr
    simp only [execFixes]
    cases selectCmd env.platform a with
    | none => exact ih k tr
    | some c =>
      by_cases hc : c = ""
      · simp only [if_pos hc]
        exact ih k tr
      · simp only [if_neg hc]
        cases env.runFix k c with
        | exit code =>
          by_cases h0 : code = 0
          · simp only [if_pos h0]
            exact ⟨rfl, rfl, rfl⟩
          · simp only [if_neg h0]
            exact ih (k + 1) (tr.pushCmd c)
        | timeout => exact ih (k + 1) (tr.pushCmd c)
        | exc => exact ih (k + 1) (tr.pushCmd c)

theorem runFallbacks_core (env : Env) (l : List Action) :
    ∀ (k : Nat) (tr : Trace),
      ((runFallbacks env l k tr).2).configures = tr.configures ∧
      ((runFallbacks env l k tr).2).compiles = tr.compiles ∧
      ((runFallbacks env l k tr).2).cwd = tr.cwd := by
  induction l with
  | nil => exact fun k tr => ⟨rfl, rfl, rfl⟩
  | cons fb rest ih =>
    intro k tr
    simp only [runFallbacks]
    have h1 := execFixes_core env [fb] k tr
    have h2 := ih (execFixes env [fb] k tr).2.1 (execFixes env [fb] k tr).2.2
    exact ⟨h2.1.trans h1.1, h2.2.1.trans h1.2.1, h2.2.2.trans h1.2.2⟩

theorem handleFailure_core (env : Env) (ps : List ErrorPattern)
    (mh out : String) (k : Nat) (tr : Trace) :
    (recTrace (handleFailure env ps mh out k tr)).configures = tr.configures ∧
    (recTrace (handleFailure env ps mh out k tr)).compiles = tr.compiles ∧
    (recTrace (handleFailure env ps mh out k tr)).cwd = tr.cwd := by
  unfold handleFailure
  cases match_error_pattern env ps out with
  | none => exact ⟨rfl, rfl, rfl⟩
  | some pat =>
    simp only [recTrace]
    by_cases hf : (execute_auto_fix env pat k tr).1 = true
    · simp only [hf, if_pos rfl, recTrace]
      exact execFixes_core env (pat.auto_fix.getD []) k tr
    · simp only [Bool.not_eq_true] at hf
      simp only [hf, Bool.false_eq_true, if_neg, recTrace]
      have h1 := execFixes_core env (pat.auto_fix.getD []) k tr
      have h2 := runFallbacks_core env (pat.fallback.getD [])
        (execute_auto_fix env pat k tr).2.1 (execute_auto_fix env pat k tr).2.2
      exact ⟨h2.1.trans h1.1, h2.2.1.trans h1.2.1, h2.2.2.trans h1.2.2⟩

theorem bwvLoop_cwd (env : Env) (ps : List ErrorPattern) :
    ∀ (rem attempt k : Nat) (tr : Trace),
      ((bwvLoop env ps rem attempt k tr).2).cwd = tr.cwd := by
  intro rem
  induction rem with
  | zero => exact fun attempt k tr => rfl
  | succ rem ih =>
    intro attempt k tr
    simp only [bwvLoop]
    by_cases hcfg : (env.configure attempt).returncode ≠ 0
    · simp only [if_pos hcfg]
      cases hh : handleFailure env ps "CMake configure failed: "
          ((env.configure attempt).stderr ++ (env.configure attempt).stdout) k
          { tr with configures := tr.configures + 1 } with
      | inl kt =>
        have hc := (handleFailure_core env ps "CMake configure failed: "
          ((env.configure attempt).stderr ++ (env.configure attempt).stdout) k
          { tr with configures := tr.configures + 1 }).2.2
        rw [hh] at hc
        exact (ih (attempt + 1) kt.1 kt.2).trans hc
      | inr m =>
        have hc := (handleFailure_core env ps "CMake configure failed: "
          ((env.configure attempt).stderr ++ (env.configure attempt).stdout) k
          { tr with configures := tr.configures + 1 }).2.2
        rw [hh] at hc
        exact hc
    · simp only [if_neg hcfg]
      by_cases hcmp : (env.compile attempt).returncode ≠ 0
      · simp only [if_pos hcmp]
        cases hh : handleFailure env ps "Build failed: "
            ((env.compile attempt).stderr ++ (env.compile attempt).stdout) k
            { tr with configures := tr.configures + 1, compiles := tr.compiles + 1 } with
        | inl kt =>
          have hc := (handleFailure_core env ps "Build failed: "
            ((env.compile attempt).stderr ++ (env.compile attempt).stdout) k
            { tr with configures := tr.configures + 1, compiles := tr.compiles + 1 }).2.2
          rw [hh] at hc
          exact (ih (attempt + 1) kt.1 kt.2).trans hc
        | inr m =>
          have hc := (handleFailure_core env ps "Build failed: "
            ((env.compile attempt).stderr ++ (env.compile attempt).stdout) k
            { tr with configures := tr.configures + 1, compiles := tr.compiles + 1 }).2.2
          rw [hh] at hc
          exact hc
      · simp only [if_neg hcmp]

theorem bwvLoop_counts (env : Env) (ps : List ErrorPattern) :
    ∀ (rem attempt k : Nat) (tr : Trace),
      ((bwvLoop env ps rem attempt k tr).2).configures ≤ tr.configures + rem ∧
      ((bwvLoop env ps rem attempt k tr).2).compiles ≤ tr.compiles + rem := by
  intro rem
  induction rem with
  | zero => exact fun attempt k tr => ⟨Nat.le_refl _, Nat.le_refl _⟩
  | succ rem ih =>
    intro attempt k tr
    simp only [bwvLoop]
    by_cases hcfg : (env.configure attempt).returncode ≠ 0
    · simp only [if_pos hcfg]
      cases hh : handleFailure env ps "CMake configure failed: "
          ((env.configure attempt).stderr ++ (env.configure attempt).stdout) k
          { tr with configures := tr.configures + 1 } with
      | inl kt =>
        have hc := handleFailure_core env ps "CMake configure failed: "
          ((env.configure attempt).stderr ++ (env.configure attempt).stdout) k
          { tr with configures := tr.configures + 1 }
        rw [hh] at hc
        have h1 : kt.2.configures = tr.configures + 1 := hc.1
        have h2 : kt.2.compiles = tr.compiles := hc.2.1
        have hb1 := (ih (attempt + 1) kt.1 kt.2).1
        have hb2 := (ih (attempt + 1) kt.1 kt.2).2
        constructor
        · show ((bwvLoop env ps rem (attempt + 1) kt.1 kt.2).2).configures ≤
            tr.configures + (rem + 1)
          omega
        · show ((bwvLoop env ps rem (attempt + 1) kt.1 kt.2).2).compiles ≤
            tr.compiles + (rem + 1)
          omega
      | inr m =>
        have hc := handleFailure_core env ps "CMake configure failed: "
          ((env.configure attempt).stderr ++ (env.configure attempt).stdout) k
          { tr with configures := tr.configures + 1 }
        rw [hh] at hc
        have h1 : m.2.2.configures = tr.configures + 1 := hc.1
        have h2 : m.2.2.compiles = tr.compiles := hc.2.1
        constructor
        · show m.2.2.configures ≤ tr.configures + (rem + 1)
          omega
        · show m.2.2.compiles ≤ tr.compiles + (rem + 1)
          omega
    · simp only [if_neg hcfg]
      by_cases hcmp : (env.compile attempt).returncode ≠ 0
      · simp only [if_pos hcmp]
        cases hh : handleFailure env ps "Build failed: "
            ((env.compile attempt).stderr ++ (env.compile attempt).stdout) k
            { tr with configures := tr.configures + 1, compiles := tr.compiles + 1 } with
        | inl kt =>
          have hc := handleFailure_core env ps "Build failed: "
            ((env.compile attempt).stderr ++ (env.compile attempt).stdout) k
            { tr with configures := tr.configures + 1, compiles := tr.compiles + 1 }
          rw [hh] at hc
          have h1 : kt.2.configures = tr.configures + 1 := hc.1
          have h2 : kt.2.compiles = tr.compiles + 1 := hc.2.1
          have hb1 := (ih (attempt + 1) kt.1 kt.2).1
          have hb2 := (ih (attempt + 1) kt.1 kt.2).2
          constructor
          · show ((bwvLoop env ps rem (attempt + 1) kt.1 kt.2).2).configures ≤
              tr.configures + (rem + 1)
            omega
          · show ((bwvLoop env ps rem (attempt + 1) kt.1 kt.2).2).compiles ≤
              tr.compiles + (rem + 1)
            omega
        | inr m =>
          have hc := handleFailure_core env ps "Build failed: "
            ((env.compile attempt).stderr ++ (env.compile attempt).stdout) k
            { tr with configures := tr.configures + 1, compiles := tr.compiles + 1 }
          rw [hh] at hc
          have h1 : m.2.2.configures = tr.configures + 1 := hc.1
          have h2 : m.2.2.compiles = tr.compiles + 1 := hc.2.1
          constructor
          · show m.2.2.configures ≤ tr.configures + (rem + 1)
            omega
          · show m.2.2.compiles ≤ tr.compiles + (rem + 1)
            omega
      · simp only [if_neg hcmp]
        constructor
        · show tr.configures + 1 ≤ tr.configures + (rem + 1)
          omega
        · show tr.compiles + 1 ≤ tr.compiles + (rem + 1)
          omega

/-- C2: for every project directory and every behaviour of the external
build tool, `build_with_validation` performs at most 3 configure invocations
and at most 3 compile invocations (`max_retry_attempts` is fixed at 3); the
loop is a total function, so it terminates. -/
theorem retry_budget_le_three (env : Env) (patterns : List ErrorPattern)
    (project_dir cwd0 : String) :
    max_retry_attempts = 3 ∧
    ((build_with_validation env patterns project_dir cwd0).2).configures ≤ 3 ∧
    ((build_with_validation env patterns project_dir cwd0).2).compiles ≤ 3 := by
  have h := bwvLoop_counts env patterns max_retry_attempts 0 0
    { configures := 0, compiles := 0, fixCmds := [], cwd := project_dir }
  exact ⟨rfl, h.1, h.2⟩

/-- C10: `build_with_validation` sets the process working directory to
`project_dir` before the first attempt and never restores it: after the call
the working directory equals `project_dir`, whatever it was before and on
every path (success or failure). -/
theorem build_with_validation_chdir_persists (env : Env)
    (patterns : List ErrorPattern) (project_dir cwd0 : String) :
    ((build_with_validation env patterns project_dir cwd0).2).cwd = project_dir :=
  bwvLoop_cwd env patterns max_retry_attempts 0 0
    { configures := 0, compiles := 0, fixCmds := [], cwd := project_dir }

/-- C1: concrete run refuting the fallback-retry claim.  The configure phase
fails with output `"E"`, a pattern matches, all of its (zero)
remediation_actions fail, and its single fallback action's command `"fixit"`
exits with status 0 — yet `build_with_validation` returns the truncated
failure after a single configure invocation instead of continuing to the
next attempt: the `continue` in the fallback loop of the source only
advances that inner `for` loop. -/
theorem fallback_success_does_not_retry :
    envC1.runFix 0 "fixit" = CmdOutcome.exit 0 ∧
    match_error_pattern envC1 [patC1] "E" = some patC1 ∧
    execute_auto_fix envC1 patC1 0 trW = (false, 0, trW) ∧
    build_with_validation envC1 [patC1] "proj" "/home" =
      ((false, "CMake configure failed: E"),
        { configures := 1, compiles := 0, fixCmds := ["fixit"], cwd := "proj" }) :=
  ⟨rfl, rfl, rfl, rfl⟩

theorem handleFailure_inr_msg (env : Env) (ps : List ErrorPattern)
    (mh out : String) (k : Nat) (tr : Trace) (m : String × Nat × Trace)
    (hm : handleFailure env ps mh out k tr = Sum.inr m) :
    m.1 = mh ++ pySlice out 300 := by
  unfold handleFailure at hm
  split at hm
  next pat heq =>
    by_cases hf : (execute_auto_fix env pat k tr).1 = true
    · rw [if_pos hf] at hm
      exact Sum.noConfusion hm
    · rw [if_neg hf] at hm
      simp only [Sum.inr.injEq] at hm
      rw [← hm]
  next heq =>
    simp only [Sum.inr.injEq] at hm
    rw [← hm]

theorem bwvLoop_forms (env : Env) (ps : List ErrorPattern) :
    ∀ (rem attempt k : Nat) (tr : Trace),
      (bwvLoop env ps rem attempt k tr).1 = (true, "Build completed successfully") ∨
      (∃ s, (bwvLoop env ps rem attempt k tr).1 = (false, "CMake configure failed: " ++ s)) ∨
      (∃ s, (bwvLoop env ps rem attempt k tr).1 = (false, "Build failed: " ++ s)) ∨
      (bwvLoop env ps rem attempt k tr).1 = (false, exhaustedMsg) := by
  intro rem
  induction rem with
  | zero => exact fun attempt k tr => Or.inr (Or.inr (Or.inr rfl))
  | succ rem ih =>
    intro attempt k tr
    simp only [bwvLoop]
    by_cases hcfg : (env.configure attempt).returncode ≠ 0
    · simp only [if_pos hcfg]
      cases hh : handleFailure env ps "CMake configure failed: "
          ((env.configure attempt).stderr ++ (env.configure attempt).stdout) k
          { tr with configures := tr.configures + 1 } with
      | inl kt => exact ih (attempt + 1) kt.1 kt.2
      | inr m =>
        refine Or.inr (Or.inl ⟨pySlice
          ((env.configure attempt).stderr ++ (env.configure attempt).stdout) 300, ?_⟩)
        show (false, m.1) = _
        rw [handleFailure_inr_msg env ps "CMake configure failed: "
          ((env.configure attempt).stderr ++ (env.configure attempt).stdout) k
          { tr with configures := tr.configures + 1 } m hh]
    · simp only [if_neg hcfg]
      by_cases hcmp : (env.compile attempt).returncode ≠ 0
      · simp only [if_pos hcmp]
        cases hh : handleFailure env ps "Build failed: "
            ((env.compile attempt).stderr ++ (env.compile attempt).stdout) k
            { tr with configures := tr.configures + 1, compiles := tr.compiles + 1 } with
        | inl kt => exact ih (attempt + 1) kt.1 kt.2
        | inr m =>
          refine Or.inr (Or.inr (Or.inl ⟨pySlice
            ((env.compile attempt).stderr ++ (env.compile attempt).stdout) 300, ?_⟩))
          show (false, m.1) = _
          rw [handleFailure_inr_msg env ps "Build failed: "
            ((env.compile attempt).stderr ++ (env.compile attempt).stdout) k
            { tr with configures := tr.configures + 1, compiles := tr.compiles + 1 } m hh]
      · exact Or.inl (by simp only [if_neg hcmp])

/-- C4: for every behaviour of the externals, `build_with_validation` returns
a result tuple and every path yields one of the four message forms of the
source: success, a truncated configure failure, a truncated compile failure,
or the exhausted-attempts message.  Subprocess failures of the two build
phases are captured as exit statuses, and remediation timeouts and
exceptions are the handled `timeout`/`exc` outcomes of `execFixes`, so no
exception crosses the controller boundary in this model of the externals. -/
theorem build_result_forms (env : Env) (patterns : List ErrorPattern)
    (project_dir cwd0 : String) :
    (build_with_validation env patterns project_dir cwd0).1 =
        (true, "Build completed successfully") ∨
    (∃ s, (build_with_validation env patterns project_dir cwd0).1 =
        (false, "CMake configure failed: " ++ s)) ∨
    (∃ s, (build_with_validation env patterns project_dir cwd0).1 =
        (false, "Build failed: " ++ s)) ∨
    (build_with_validation env patterns project_dir cwd0).1 =
        (false, "Build failed after 3 attempts") :=
  bwvLoop_forms env patterns max_retry_attempts 0 0
    { configures := 0, compiles := 0, fixCmds := [], cwd := project_dir }

/-- C5: `match_error_pattern` returns exactly the first pattern in table
order whose platform list (default `["all"]`) contains the current platform
or "all" and whose regex matches the output; platform-restricted patterns
are never returned on other platforms even when their regex matches, and if
no pattern qualifies the result is `none` — this is `List.find?` of the
`qualifies` predicate. -/
theorem match_error_pattern_eq_find (env : Env) (out : String)
    (ps : List ErrorPattern) :
    match_error_pattern env ps out = ps.find? (qualifies env out) := by
  induction ps with
  | nil => rfl
  | cons p rest ih =>
    by_cases hq : qualifies env out p = true
    · rw [List.find?_cons_of_pos _ hq]
      simp only [qualifies, Bool.and_eq_true, Bool.or_eq_true, decide_eq_true_eq] at hq
      have hnot : ¬("all" ∉ p.platform.getD ["all"] ∧
          env.platform ∉ p.platform.getD ["all"]) := by tauto
      simp only [match_error_pattern]
      rw [if_neg hnot, if_pos hq.2]
    · rw [List.find?_cons_of_neg _ hq]
      simp only [qualifies, Bool.and_eq_true, Bool.or_eq_true, decide_eq_true_eq,
        not_and, Bool.not_eq_true] at hq
      simp only [match_error_pattern]
      by_cases hplat : "all" ∉ p.platform.getD ["all"] ∧
          env.platform ∉ p.platform.getD ["all"]
      · rw [if_pos hplat]
        exact ih
      · rw [if_neg hplat]
        have hor : "all" ∈ p.platform.getD ["all"] ∨
            env.platform ∈ p.platform.getD ["all"] := by tauto
        rw [if_neg (by simp [hq hor])]
        exact ih

theorem bwvLoop_compile_fail_unmatched (env : Env) (ps : List ErrorPattern)
    (rem attempt k : Nat) (tr : Trace)
    (hcfg : (env.configure attempt).returncode = 0)
    (hcmp : (env.compile attempt).returncode ≠ 0)
    (hmatch : match_error_pattern env ps
      ((env.compile attempt).stderr ++ (env.compile attempt).stdout) = none) :
    bwvLoop env ps (rem + 1) attempt k tr =
      ((false, "Build failed: " ++
          pySlice ((env.compile attempt).stderr ++ (env.compile attempt).stdout) 300),
        { tr with configures := tr.configures + 1, compiles := tr.compiles + 1 }) := by
  simp only [bwvLoop]
  rw [if_neg (not_not_intro hcfg), if_pos hcmp]
  unfold handleFailure
  rw [hmatch]

/-- C3 (counterexample): with an empty pattern table the compile phase fails
on every attempt with output matching no pattern, yet `build_with_validation`
returns `(False, "Build failed: boom")` — the truncated raw output — on the
first attempt, not `(False, "Build failed after 3 attempts")`. -/
theorem unmatched_compile_failure_cex :
    (envC3.compile 0).returncode ≠ 0 ∧ (envC3.compile 1).returncode ≠ 0 ∧
    (envC3.compile 2).returncode ≠ 0 ∧
    match_error_pattern envC3 [] "boom" = none ∧
    (build_with_validation envC3 [] "proj" "/home").1 = (false, "Build failed: boom") ∧
    (false, "Build failed: boom") ≠ ((false : Bool), "Build failed after 3 attempts") := by
  refine ⟨?_, ?_, ?_, rfl, rfl, ?_⟩ <;> decide

/-- C3 (amended): if the configure phase succeeds on the first attempt and
the compile phase fails with output that matches no pattern in the database,
`build_with_validation` returns immediately on that first attempt with
`(False, "Build failed: " + first 300 characters of the output)`; the
message "Build failed after 3 attempts" arises only when all three attempts
are consumed, i.e. when every failure is answered by a remediation that
reports success. -/
theorem unmatched_compile_failure_returns_immediately
    (env : Env) (patterns : List ErrorPattern) (project_dir cwd0 : String)
    (hcfg : (env.configure 0).returncode = 0)
    (hcmp : (env.compile 0).returncode ≠ 0)
    (hmatch : match_error_pattern env patterns
      ((env.compile 0).stderr ++ (env.compile 0).stdout) = none) :
    (build_with_validation env patterns project_dir cwd0).1 =
      (false, "Build failed: " ++
        pySlice ((env.compile 0).stderr ++ (env.compile 0).stdout) 300) := by
  show (bwvLoop env patterns (2 + 1) 0 0
    { configures := 0, compiles := 0, fixCmds := [], cwd := project_dir }).1 = _
  rw [bwvLoop_compile_fail_unmatched env patterns 2 0 0
    { configures := 0, compiles := 0, fixCmds := [], cwd := project_dir }
    hcfg hcmp hmatch]

/-- Witness for the amended C3 theorem at a concrete environment. -/
theorem unmatched_compile_failure_returns_immediately_witness :
    (envC3.configure 0).returncode = 0 ∧ (envC3.compile 0).returncode ≠ 0 ∧
    (build_with_validation envC3 [] "proj" "/home").1 =
      (false, "Build failed: " ++
        pySlice ((envC3.compile 0).stderr ++ (envC3.compile 0).stdout) 300) :=
  ⟨rfl, by decide,
    unmatched_compile_failure_returns_immediately envC3 [] "proj" "/home"
      rfl (by decide) rfl⟩

theorem bwvLoop_empty (env : Env) (rem attempt k : Nat) (tr : Trace) :
    bwvLoop env [] (rem + 1) attempt k tr =
      (if (env.configure attempt).returncode ≠ 0 then
        ((false, "CMake configure failed: " ++
            pySlice ((env.configure attempt).stderr ++ (env.configure attempt).stdout) 300),
          { tr with configures := tr.configures + 1 })
      else if (env.compile attempt).returncode ≠ 0 then
        ((false, "Build failed: " ++
            pySlice ((env.compile attempt).stderr ++ (env.compile attempt).stdout) 300),
          { tr with configures := tr.configures + 1, compiles := tr.compiles + 1 })
      else ((true, "Build completed successfully"),
        { tr with configures := tr.configures + 1, compiles := tr.compiles + 1 })) := by
  simp only [bwvLoop]
  by_cases h1 : (env.configure attempt).returncode ≠ 0
  · rw [if_pos h1, if_pos h1]
    rfl
  · rw [if_neg h1, if_neg h1]
    by_cases h2 : (env.compile attempt).returncode ≠ 0
    · rw [if_pos h2, if_pos h2]
      rfl
    · rw [if_neg h2, if_neg h2]

/-- C7: a missing or unparsable pattern file loads as the empty table; with
an empty table `match_error_pattern` returns `none` for every output, no
remediation command is ever executed, and every build failure is returned to
the caller on the first failing attempt with the raw combined output
truncated to its first 300 characters. -/
theorem empty_pattern_table_surfaces_raw_failures :
    loadPatterns LoadOutcome.fileNotFound = [] ∧
    loadPatterns LoadOutcome.jsonDecodeError = [] ∧
    (∀ (env : Env) (out : String), match_error_pattern env [] out = none) ∧
    (∀ (env : Env) (project_dir cwd0 : String),
      ((build_with_validation env [] project_dir cwd0).2).fixCmds = [] ∧
      (build_with_validation env [] project_dir cwd0).1 =
        (if (env.configure 0).returncode ≠ 0 then
          (false, "CMake configure failed: " ++
            pySlice ((env.configure 0).stderr ++ (env.configure 0).stdout) 300)
        else if (env.compile 0).returncode ≠ 0 then
          (false, "Build failed: " ++
            pySlice ((env.compile 0).stderr ++ (env.compile 0).stdout) 300)
        else (true, "Build completed successfully"))) := by
  refine ⟨rfl, rfl, fun env out => rfl, fun env project_dir cwd0 => ⟨?_, ?_⟩⟩
  · show ((bwvLoop env [] (2 + 1) 0 0
      { configures := 0, compiles := 0, fixCmds := [], cwd := project_dir }).2).fixCmds = []
    rw [bwvLoop_empty]
    split_ifs <;> rfl
  · show (bwvLoop env [] (2 + 1) 0 0
      { configures := 0, compiles := 0, fixCmds := [], cwd := project_dir }).1 = _
    rw [bwvLoop_empty]
    split_ifs <;> rfl

theorem runFix_shift (rf : Nat → String → CmdOutcome) (c : String)
    (cs : List String) (k : Nat) (hne : rf k c ≠ CmdOutcome.exit 0) :
    (∃ i, i < (c :: cs).length ∧
        rf (k + i) ((c :: cs).getD i "") = CmdOutcome.exit 0) ↔
    (∃ i, i < cs.length ∧ rf (k + 1 + i) (cs.getD i "") = CmdOutcome.exit 0) := by
  constructor
  · rintro ⟨i, hi, he⟩
    cases i with
    | zero => exact absurd he hne
    | succ j =>
      refine ⟨j, by simp only [List.length_cons] at hi; omega, ?_⟩
      rw [show k + 1 + j = k + (j + 1) from by omega]
      exact he
  · rintro ⟨j, hj, he⟩
    refine ⟨j + 1, by simp only [List.length_cons]; omega, ?_⟩
    show rf (k + (j + 1)) (cs.getD j "") = CmdOutcome.exit 0
    rw [show k + (j + 1) = k + 1 + j from by omega]
    exact he

theorem execFixes_true_iff (env : Env) :
    ∀ (fixes : List Action) (k : Nat) (tr : Trace),
      (execFixes env fixes k tr).1 = true ↔
      ∃ i, i < (runnableCmds env.platform fixes).length ∧
        env.runFix (k + i) ((runnableCmds env.platform fixes).getD i "") =
          CmdOutcome.exit 0 := by
  intro fixes
  induction fixes with
  | nil =>
    intro k tr
    simp [execFixes, runnableCmds]
  | cons a rest ih =>
    intro k tr
    cases hsel : selectCmd env.platform a with
    | none =>
      have hstep : execFixes env (a :: rest) k tr = execFixes env rest k tr := by
        simp [execFixes, hsel]
      have hrun : runnableCmds env.platform (a :: rest) =
          runnableCmds env.platform rest := by
        simp [runnableCmds, List.filterMap_cons, hsel]
      rw [hstep, hrun]
      exact ih k tr
    | some c =>
      by_cases hc : c = ""
      · have hstep : execFixes env (a :: rest) k tr = execFixes env rest k tr := by
          simp [execFixes, hsel, hc]
        have hrun : runnableCmds env.platform (a :: rest) =
            runnableCmds env.platform rest := by
          simp [runnableCmds, List.filterMap_cons, hsel, hc]
        rw [hstep, hrun]
        exact ih k tr
      · have hrun : runnableCmds env.platform (a :: rest) =
            c :: runnableCmds env.platform rest := by
          simp [runnableCmds, List.filterMap_cons, hsel, hc]
        cases hr : env.runFix k c with
        | exit code =>
          by_cases h0 : code = 0
          · subst h0
            have hstep : execFixes env (a :: rest) k tr = (true, k + 1, tr.pushCmd c) := by
              simp [execFixes, hsel, hc, hr]
            rw [hstep, hrun]
            constructor
            · intro _
              exact ⟨0, by simp, by simpa using hr⟩
            · intro _
              rfl
          · have hstep : execFixes env (a :: rest) k tr =
                execFixes env rest (k + 1) (tr.pushCmd c) := by
              simp [execFixes, hsel, hc, hr, h0]
            rw [hstep, hrun,
              runFix_shift env.runFix c (runnableCmds env.platform rest) k
                (by simp [hr, h0])]
            exact ih (k + 1) (tr.pushCmd c)
        | timeout =>
          have hstep : execFixes env (a :: rest) k tr =
              execFixes env rest (k + 1) (tr.pushCmd c) := by
            simp [execFixes, hsel, hc, hr]
          rw [hstep, hrun,
            runFix_shift env.runFix c (runnableCmds env.platform rest) k
              (by simp [hr])]
          exact ih (k + 1) (tr.pushCmd c)
        | exc =>
          have hstep : execFixes env (a :: rest) k tr =
              execFixes env rest (k + 1) (tr.pushCmd c) := by
            simp [execFixes, hsel, hc, hr]
          rw [hstep, hrun,
            runFix_shift env.runFix c (runnableCmds env.platform rest) k
              (by simp [hr])]
          exact ih (k + 1) (tr.pushCmd c)

/-- C6: `execute_auto_fix` processes the pattern's actions in list order
with the platform-appropriate command (`command_windows` on Windows,
`command_linux` otherwise, falling back to the generic `command`): an empty
action list yields `False`; an action whose selected command is missing or
empty is informational — skipped with no execution and never a success; the
first command exiting with status 0 yields `True` immediately, executing no
later action; and overall the result is `True` exactly when some runnable
command in the sequence exits with status 0 (so `False` when none does,
including the empty list). -/
theorem execute_auto_fix_spec :
    (∀ (env : Env) (pat : ErrorPattern) (k : Nat) (tr : Trace),
      pat.auto_fix.getD [] = [] → execute_auto_fix env pat k tr = (false, k, tr)) ∧
    (∀ (env : Env) (a : Action) (rest : List Action) (k : Nat) (tr : Trace),
      selectCmd env.platform a = none ∨ selectCmd env.platform a = some "" →
      execFixes env (a :: rest) k tr = execFixes env rest k tr) ∧
    (∀ (env : Env) (a : Action) (rest : List Action) (k : Nat) (tr : Trace)
      (c : String), selectCmd env.platform a = some c → c ≠ "" →
      env.runFix k c = CmdOutcome.exit 0 →
      execFixes env (a :: rest) k tr = (true, k + 1, tr.pushCmd c)) ∧
    (∀ (env : Env) (fixes : List Action) (k : Nat) (tr : Trace),
      (execFixes env fixes k tr).1 = true ↔
      ∃ i, i < (runnableCmds env.platform fixes).length ∧
        env.runFix (k + i) ((runnableCmds env.platform fixes).getD i "") =
          CmdOutcome.exit 0) := by
  refine ⟨?_, ?_, ?_, ?_⟩
  · intro env pat k tr h
    unfold execute_auto_fix
    rw [h]
    rfl
  · intro env a rest k tr h
    rcases h with h | h <;> simp [execFixes, h]
  · intro env a rest k tr c hsel hc hr
    simp [execFixes, hsel, hc, hr]
  · exact fun env fixes k tr => execFixes_true_iff env fixes k tr

/-- Witness for C6 at concrete inputs: the single action's generic command
`"fixit"` is selected on Linux, exits with status 0, and the procedure
reports `True` at once. -/
theorem execute_auto_fix_spec_witness :
    selectCmd envC1.platform fbC1 = some "fixit" ∧
    envC1.runFix 0 "fixit" = CmdOutcome.exit 0 ∧
    execFixes envC1 [fbC1] 0 trW = (true, 1, trW.pushCmd "fixit") :=
  ⟨rfl, rfl,
    execute_auto_fix_spec.2.2.1 envC1 fbC1 [] 0 trW "fixit" rfl (by decide) rfl⟩

/-- C8: a remediation command that times out (the 30-second
`subprocess.TimeoutExpired`) or raises an unexpected exception is caught
and treated as an unsuccessful action: execution proceeds to the next
action with the command counter advanced, exactly as for a non-zero exit;
the outcome is a return value of `execFixes`, so it neither aborts the
outer retry loop nor propagates to the caller. -/
theorem fix_timeout_or_exception_continues
    (env : Env) (a : Action) (rest : List Action) (k : Nat) (tr : Trace)
    (c : String) (hsel : selectCmd env.platform a = some c) (hc : c ≠ "")
    (hout : env.runFix k c = CmdOutcome.timeout ∨
      env.runFix k c = CmdOutcome.exc) :
    execFixes env (a :: rest) k tr = execFixes env rest (k + 1) (tr.pushCmd c) := by
  rcases hout with h | h <;> simp [execFixes, hsel, hc, h]

/-- Witness for C8 at a concrete timing-out environment. -/
theorem fix_timeout_or_exception_continues_witness :
    selectCmd envTimeout.platform fbC1 = some "fixit" ∧
    envTimeout.runFix 0 "fixit" = CmdOutcome.timeout ∧
    execFixes envTimeout [fbC1] 0 trW =
      execFixes envTimeout [] 1 (trW.pushCmd "fixit") :=
  ⟨rfl, rfl,
    fix_timeout_or_exception_continues envTimeout fbC1 [] 0 trW "fixit"
      rfl (by decide) (Or.inl rfl)⟩

/-- C9: a pattern record whose `regex` key is absent or the empty string is
looked up with the empty regex, and `re.search` with an empty pattern
matches every string (the `hsem` hypothesis states this behaviour of the
regex oracle); such a pattern therefore matches any output, subject only to
the platform filter, and shadows every later pattern in the table. -/
theorem empty_regex_matches_everything
    (env : Env) (p : ErrorPattern) (rest : List ErrorPattern) (out : String)
    (hre : p.regex = none ∨ p.regex = some "")
    (hsem : ∀ s, env.research "" s = true)
    (hplat : "all" ∈ p.platform.getD ["all"] ∨
      env.platform ∈ p.platform.getD ["all"]) :
    match_error_pattern env (p :: rest) out = some p := by
  have hregex : p.regex.getD "" = "" := by
    rcases hre with h | h <;> simp [h]
  have hnot : ¬("all" ∉ p.platform.getD ["all"] ∧
      env.platform ∉ p.platform.getD ["all"]) := by tauto
  simp only [match_error_pattern]
  rw [if_neg hnot, hregex, if_pos (hsem out)]

/-- Witness for C9: a record with no `regex` key, placed first, shadows a
later pattern for an arbitrary output. -/
theorem empty_regex_matches_everything_witness :
    patC9.regex = none ∧
    match_error_pattern envC1 [patC9, patC1] "anything" = some patC9 :=
  ⟨rfl,
    empty_regex_matches_everything envC1 patC9 [patC1] "anything"
      (Or.inl rfl) (fun _ => rfl) (Or.inl (by simp [patC9]))⟩

end InitProject
